import Mathlib

/-!
Verification of the FormQAR-054 PSUR schema generator.

The repository has two files:
* `template.py` — builds one large JSON-Schema value `schema` (a helper
  `table_array` builds array-of-objects table schemas; thirteen section
  schemas are inserted into `schema["$defs"]["sections"]["properties"]`).
* `scripts/generate_template_json.py` — re-executes the builder source
  (with the trailing file-write block stripped), then wraps the resulting
  `schema` with `meta`, `uiSchema`, `layout` and `theme` blocks into
  `template_json` and writes it out.

Below, JSON values are embedded as the inductive type `J`; every literal
from the two Python files is transcribed verbatim (Python dicts keep their
key order; `True`/`False` become `J.bool`; numbers become `J.num` over ℚ).
The source populates `schema["$defs"]["sections"]["properties"]` by
in-place mutation after constructing `schema`; here `schema` is defined
directly as the final value, with the thirteen section schemas given first
as named definitions in the order the source assigns them.
-/

/-- A JSON value. Objects are ordered key/value lists, mirroring Python
dict insertion order. -/
inductive J where
  | null : J
  | bool : Bool → J
  | num : ℚ → J
  | str : String → J
  | arr : List J → J
  | obj : List (String × J) → J

/-- Key lookup on a JSON object (first binding wins, as in a Python dict
where keys are unique). Returns `none` on non-objects. -/
def J.lookup (j : J) (k : String) : Option J :=
  match j with
  | .obj kvs => kvs.lookup k
  | _ => none

/-- The list of keys of a JSON object (empty for non-objects). -/
def J.keys (j : J) : List String :=
  match j with
  | .obj kvs => kvs.map Prod.fst
  | _ => []

/-- Follow a path of object keys from a JSON value. -/
def J.getPath (j : J) : List String → Option J
  | [] => some j
  | k :: ks =>
    match j.lookup k with
    | some v => v.getPath ks
    | none => none

/-- `template.py`, `table_array(required_fields, props, min_items=0)`:
builds an array-of-objects table schema. The Python function body is a
single dict literal; it performs no check that the names in
`required_fields` occur in `props`. -/
def table_array (required_fields : List String) (props : List (String × J))
    (min_items : ℚ) : J :=
  J.obj [
    ("type", J.str "array"),
    ("minItems", J.num min_items),
    ("items", J.obj [
      ("type", J.str "object"),
      ("additionalProperties", J.bool false),
      ("required", J.arr (required_fields.map J.str)),
      ("properties", J.obj props)
    ]),
    ("ui", J.obj [("widget", J.str "table")])
  ]

/-- `template.py`, `sections["A_executive_summary"]`. -/
def A_executive_summary : J :=
  J.obj [
    ("type", J.str "object"),
    ("additionalProperties", J.bool false),
    ("required", J.arr [J.str "previous_psur_actions_status", J.str "notified_body_review_status",
      J.str "data_collection_period_changes", J.str "benefit_risk_assessment_conclusion"]),
    ("properties", J.obj [
      ("previous_psur_actions_status", J.obj [
        ("type", J.str "object"),
        ("additionalProperties", J.bool false),
        ("required", J.arr [J.str "actions_and_status_from_previous_report", J.str "status_of_previous_actions"]),
        ("properties", J.obj [
          ("actions_and_status_from_previous_report", J.obj [("type", J.str "string"), ("ui", J.obj [("widget", J.str "textarea")])]),
          ("status_of_previous_actions", J.obj [
            ("type", J.str "object"),
            ("additionalProperties", J.bool false),
            ("required", J.arr [J.str "status"]),
            ("properties", J.obj [
              ("status", J.obj [("type", J.str "string"),
                ("enum", J.arr [J.str "COMPLETED", J.str "IN_PROGRESS", J.str "NOT_STARTED", J.str "NOT_APPLICABLE", J.str "NOT_SELECTED"]),
                ("default", J.str "NOT_SELECTED"), ("ui", J.obj [("widget", J.str "select")])]),
              ("details_if_needed", J.obj [("type", J.str "string"), ("ui", J.obj [("widget", J.str "textarea")])])
            ])
          ])
        ])
      ]),
      ("notified_body_review_status", J.obj [
        ("type", J.str "object"),
        ("additionalProperties", J.bool false),
        ("required", J.arr [J.str "previous_psur_reviewed_by_notified_body"]),
        ("properties", J.obj [
          ("previous_psur_reviewed_by_notified_body", J.obj [("$ref", J.str "#/$defs/YesNoNA"), ("ui", J.obj [("widget", J.str "select")])]),
          ("notified_body_actions_taken", J.obj [("type", J.str "string"), ("ui", J.obj [("widget", J.str "textarea")])]),
          ("status_of_nb_actions", J.obj [("type", J.str "string"), ("ui", J.obj [("widget", J.str "textarea")])])
        ])
      ]),
      ("data_collection_period_changes", J.obj [
        ("type", J.str "object"),
        ("additionalProperties", J.bool false),
        ("required", J.arr [J.str "data_collection_period_changed"]),
        ("properties", J.obj [
          ("data_collection_period_changed", J.obj [("$ref", J.str "#/$defs/TriState"), ("ui", J.obj [("widget", J.str "select")])]),
          ("justification_for_change", J.obj [("type", J.str "string"), ("ui", J.obj [("widget", J.str "textarea")])]),
          ("impact_on_comparability", J.obj [("type", J.str "string"), ("ui", J.obj [("widget", J.str "textarea")])])
        ]),
        ("allOf", J.arr [
          J.obj [("if", J.obj [("properties", J.obj [("data_collection_period_changed", J.obj [("const", J.str "YES")])])]),
                 ("then", J.obj [("required", J.arr [J.str "justification_for_change", J.str "impact_on_comparability"])])]
        ])
      ]),
      ("benefit_risk_assessment_conclusion", J.obj [
        ("type", J.str "object"),
        ("additionalProperties", J.bool false),
        ("required", J.arr [J.str "conclusion"]),
        ("properties", J.obj [
          ("conclusion", J.obj [("type", J.str "string"),
            ("enum", J.arr [J.str "NOT_ADVERSELY_IMPACTED_UNCHANGED", J.str "ADVERSELY_IMPACTED", J.str "NOT_SELECTED"]),
            ("default", J.str "NOT_SELECTED"), ("ui", J.obj [("widget", J.str "select")])]),
          ("high_level_summary_if_adversely_impacted", J.obj [("type", J.str "string"), ("ui", J.obj [("widget", J.str "textarea")])])
        ]),
        ("allOf", J.arr [
          J.obj [("if", J.obj [("properties", J.obj [("conclusion", J.obj [("const", J.str "ADVERSELY_IMPACTED")])])]),
                 ("then", J.obj [("required", J.arr [J.str "high_level_summary_if_adversely_impacted"])])]
        ])
      ])
    ])
  ]

/-- `template.py`, `sections["B_scope_and_device_description"]`. -/
def B_scope_and_device_description : J :=
  J.obj [
    ("type", J.str "object"),
    ("additionalProperties", J.bool false),
    ("required", J.arr [J.str "device_information", J.str "device_classification", J.str "device_timeline_and_status",
      J.str "device_description_and_information", J.str "device_information_breakdown",
      J.str "data_collection_period_reporting_period_information", J.str "technical_information",
      J.str "model_catalog_numbers", J.str "device_grouping_information"]),
    ("properties", J.obj [
      ("device_information", J.obj [
        ("type", J.str "object"),
        ("additionalProperties", J.bool false),
        ("required", J.arr [J.str "product_name", J.str "implantable_device"]),
        ("properties", J.obj [
          ("product_name", J.obj [("type", J.str "string"), ("minLength", J.num 1)]),
          ("implantable_device", J.obj [("$ref", J.str "#/$defs/TriState"), ("ui", J.obj [("widget", J.str "select")])])
        ])
      ]),
      ("device_classification", J.obj [
        ("type", J.str "object"),
        ("additionalProperties", J.bool false),
        ("required", J.arr [J.str "eu_mdr_classification", J.str "eu_technical_documentation_number",
          J.str "classification_rule_mdr_annex_viii", J.str "uk_classification",
          J.str "us_fda_classification", J.str "us_pre_market_submission_number"]),
        ("properties", J.obj [
          ("eu_mdr_classification", J.obj [("$ref", J.str "#/$defs/MDRClass"), ("ui", J.obj [("widget", J.str "select")])]),
          ("eu_technical_documentation_number", J.obj [("type", J.str "string"), ("minLength", J.num 1)]),
          ("classification_rule_mdr_annex_viii", J.obj [("type", J.str "string"), ("minLength", J.num 1)]),
          ("uk_classification", J.obj [
            ("type", J.str "object"),
            ("additionalProperties", J.bool false),
            ("required", J.arr [J.str "is_applicable", J.str "uk_classification_value"]),
            ("properties", J.obj [
              ("is_applicable", J.obj [("type", J.str "boolean"), ("default", J.bool false)]),
              ("uk_classification_value", J.obj [("$ref", J.str "#/$defs/MDRClass"), ("ui", J.obj [("widget", J.str "select")])]),
              ("uk_conformity_assessment_details", J.obj [("type", J.str "string"), ("ui", J.obj [("widget", J.str "textarea")])]),
              ("uk_classification_rule", J.obj [("type", J.str "string")])
            ]),
            ("allOf", J.arr [
              J.obj [("if", J.obj [("properties", J.obj [("is_applicable", J.obj [("const", J.bool true)])])]),
                     ("then", J.obj [("required", J.arr [J.str "uk_conformity_assessment_details", J.str "uk_classification_rule"])])]
            ])
          ]),
          ("us_fda_classification", J.obj [("$ref", J.str "#/$defs/USFDAClass"), ("ui", J.obj [("widget", J.str "select")])]),
          ("us_pre_market_submission_number", J.obj [("type", J.str "string"), ("minLength", J.num 1)])
        ])
      ]),
      ("device_timeline_and_status", J.obj [
        ("type", J.str "object"),
        ("additionalProperties", J.bool false),
        ("required", J.arr [J.str "certification_milestones", J.str "psur_obligation_status_assessment"]),
        ("properties", J.obj [
          ("certification_milestones", J.obj [
            ("type", J.str "object"),
            ("additionalProperties", J.bool false),
            ("required", J.arr [J.str "eu", J.str "uk"]),
            ("properties", J.obj [
              ("eu", J.obj [
                ("type", J.str "object"),
                ("additionalProperties", J.bool false),
                ("properties", J.obj [
                  ("first_declaration_of_conformity_date", J.obj [("type", J.str "string"), ("format", J.str "date")]),
                  ("first_ec_eu_certificate_date", J.obj [("type", J.str "string"), ("format", J.str "date")]),
                  ("first_ce_marking_date", J.obj [("type", J.str "string"), ("format", J.str "date")])
                ])
              ]),
              ("uk", J.obj [
                ("type", J.str "object"),
                ("additionalProperties", J.bool false),
                ("required", J.arr [J.str "is_applicable"]),
                ("properties", J.obj [
                  ("is_applicable", J.obj [("type", J.str "boolean"), ("default", J.bool false)]),
                  ("first_date_of_certification_or_doc_for_gb_market", J.obj [("type", J.str "string"), ("format", J.str "date")]),
                  ("first_ce_marking_date", J.obj [("type", J.str "string"), ("format", J.str "date")]),
                  ("first_market_placement_date", J.obj [("type", J.str "string"), ("format", J.str "date")]),
                  ("first_service_deployment_date", J.obj [("type", J.str "string"), ("format", J.str "date")])
                ]),
                ("allOf", J.arr [
                  J.obj [("if", J.obj [("properties", J.obj [("is_applicable", J.obj [("const", J.bool true)])])]),
                         ("then", J.obj [("required", J.arr [J.str "first_date_of_certification_or_doc_for_gb_market", J.str "first_market_placement_date"])])]
                ])
              ])
            ])
          ]),
          ("psur_obligation_status_assessment", J.obj [
            ("type", J.str "object"),
            ("additionalProperties", J.bool false),
            ("required", J.arr [J.str "market_status", J.str "certificate_status"]),
            ("properties", J.obj [
              ("market_status", J.obj [("type", J.str "string"), ("minLength", J.num 1), ("ui", J.obj [("widget", J.str "textarea")])]),
              ("last_device_sold_date_or_na", J.obj [("type", J.str "string"), ("ui", J.obj [("widget", J.str "text"), ("help", J.str "Use date (YYYY-MM-DD) or \x27N/A\x27")])]),
              ("certificate_status", J.obj [("type", J.str "string"), ("minLength", J.num 1), ("ui", J.obj [("widget", J.str "textarea")])]),
              ("projected_end_of_pms_period", J.obj [("type", J.str "string"), ("ui", J.obj [("widget", J.str "text")])]),
              ("confirmation_of_ongoing_psur_obligation", J.obj [("type", J.str "string"), ("ui", J.obj [("widget", J.str "textarea")])])
            ])
          ])
        ])
      ]),
      ("device_description_and_information", J.obj [
        ("type", J.str "object"),
        ("additionalProperties", J.bool false),
        ("required", J.arr [J.str "device_description", J.str "intended_purpose_use"]),
        ("properties", J.obj [
          ("device_description", J.obj [("type", J.str "string"), ("minLength", J.num 1), ("ui", J.obj [("widget", J.str "textarea")])]),
          ("intended_purpose_use", J.obj [("type", J.str "string"), ("minLength", J.num 1), ("ui", J.obj [("widget", J.str "textarea")])]),
          ("indications", J.obj [("type", J.str "string"), ("ui", J.obj [("widget", J.str "textarea")])]),
          ("contraindications", J.obj [("type", J.str "string"), ("ui", J.obj [("widget", J.str "textarea")])]),
          ("target_populations", J.obj [("type", J.str "string"), ("ui", J.obj [("widget", J.str "textarea")])])
        ])
      ]),
      ("device_information_breakdown", J.obj [
        ("type", J.str "object"),
        ("additionalProperties", J.bool false),
        ("required", J.arr [J.str "mdr_devices", J.str "legacy_devices"]),
        ("properties", J.obj [
          ("mdr_devices", J.obj [
            ("type", J.str "object"),
            ("additionalProperties", J.bool false),
            ("required", J.arr [J.str "basic_udi_di_rows"]),
            ("properties", J.obj [
              ("basic_udi_di_rows", table_array
                [ "basic_udi_di", "device_trade_name", "emdn_code" ]
                [
                  ("basic_udi_di", J.obj [("type", J.str "string"), ("minLength", J.num 1)]),
                  ("device_trade_name", J.obj [("type", J.str "string"), ("minLength", J.num 1)]),
                  ("emdn_code", J.obj [("type", J.str "string"), ("minLength", J.num 1)]),
                  ("changes_from_previous_psur", J.obj [("type", J.str "string"), ("ui", J.obj [("widget", J.str "textarea")])])
                ]
                1)
            ])
          ]),
          ("legacy_devices", J.obj [
            ("type", J.str "object"),
            ("additionalProperties", J.bool false),
            ("required", J.arr [J.str "is_applicable"]),
            ("properties", J.obj [
              ("is_applicable", J.obj [("type", J.str "boolean"), ("default", J.bool false)]),
              ("device_group_family_rows", table_array
                [ "device_group", "trade_names", "gmdn_code", "market_availability_member_states" ]
                [
                  ("device_group", J.obj [("type", J.str "string")]),
                  ("trade_names", J.obj [("type", J.str "string"), ("ui", J.obj [("widget", J.str "textarea")])]),
                  ("gmdn_code", J.obj [("type", J.str "string")]),
                  ("market_availability_member_states", J.obj [("type", J.str "string"), ("ui", J.obj [("widget", J.str "textarea")])])
                ]
                0)
            ])
          ])
        ])
      ]),
      ("data_collection_period_reporting_period_information", J.obj [
        ("type", J.str "object"),
        ("additionalProperties", J.bool false),
        ("required", J.arr [J.str "date_range"]),
        ("properties", J.obj [
          ("date_range", J.obj [
            ("type", J.str "object"),
            ("additionalProperties", J.bool false),
            ("required", J.arr [J.str "start_date", J.str "end_date"]),
            ("properties", J.obj [
              ("start_date", J.obj [("type", J.str "string"), ("format", J.str "date")]),
              ("end_date", J.obj [("type", J.str "string"), ("format", J.str "date")])
            ])
          ]),
          ("pms_period_determination_uk_devices", J.obj [
            ("type", J.str "object"),
            ("additionalProperties", J.bool false),
            ("required", J.arr [J.str "is_applicable"]),
            ("properties", J.obj [
              ("is_applicable", J.obj [("type", J.str "boolean"), ("default", J.bool false)]),
              ("pms_period_determination_text", J.obj [("type", J.str "string"), ("ui", J.obj [("widget", J.str "textarea")])]),
              ("device_lifetime_text", J.obj [("type", J.str "string"), ("ui", J.obj [("widget", J.str "textarea")])]),
              ("projected_end_of_pms_period_text", J.obj [("type", J.str "string"), ("ui", J.obj [("widget", J.str "textarea")])])
            ])
          ])
        ])
      ]),
      ("technical_information", J.obj [
        ("type", J.str "object"),
        ("additionalProperties", J.bool false),
        ("required", J.arr [J.str "risk_management_file_number", J.str "associated_documents"]),
        ("properties", J.obj [
          ("risk_management_file_number", J.obj [("type", J.str "string"), ("minLength", J.num 1)]),
          ("associated_documents", J.obj [
            ("type", J.str "array"),
            ("minItems", J.num 1),
            ("items", J.obj [
              ("type", J.str "object"),
              ("additionalProperties", J.bool false),
              ("required", J.arr [J.str "document_type", J.str "document_number", J.str "document_title"]),
              ("properties", J.obj [
                ("document_type", J.obj [("type", J.str "string"),
                  ("enum", J.arr [J.str "PMS Plan", J.str "Clinical Evaluation Report", J.str "PMCF Plan", J.str "Other"])]),
                ("document_number", J.obj [("type", J.str "string"), ("minLength", J.num 1)]),
                ("document_title", J.obj [("type", J.str "string"), ("minLength", J.num 1)])
              ])
            ]),
            ("ui", J.obj [("widget", J.str "table")])
          ])
        ])
      ]),
      ("model_catalog_numbers", J.obj [
        ("type", J.str "object"),
        ("additionalProperties", J.bool false),
        ("required", J.arr [J.str "complete_listing_reference"]),
        ("properties", J.obj [
          ("complete_listing_reference", J.obj [("type", J.str "string"), ("minLength", J.num 1),
            ("ui", J.obj [("widget", J.str "text"), ("help", J.str "Reference to an attachment or controlled list")])])
        ])
      ]),
      ("device_grouping_information", J.obj [
        ("type", J.str "object"),
        ("additionalProperties", J.bool false),
        ("required", J.arr [J.str "is_applicable", J.str "multiple_devices_included"]),
        ("properties", J.obj [
          ("is_applicable", J.obj [("type", J.str "boolean"), ("default", J.bool false)]),
          ("multiple_devices_included", J.obj [("$ref", J.str "#/$defs/TriState"), ("ui", J.obj [("widget", J.str "select")])]),
          ("justification_for_grouping", J.obj [("type", J.str "string"), ("ui", J.obj [("widget", J.str "textarea")])]),
          ("leading_device", J.obj [("type", J.str "string")]),
          ("leading_device_rationale", J.obj [("type", J.str "string"), ("ui", J.obj [("widget", J.str "textarea")])]),
          ("same_clinical_evaluation_report", J.obj [("$ref", J.str "#/$defs/TriState"), ("ui", J.obj [("widget", J.str "select")])]),
          ("same_notified_body_for_all_devices", J.obj [("$ref", J.str "#/$defs/TriState"), ("ui", J.obj [("widget", J.str "select")])]),
          ("grouping_changes_from_previous_psur", J.obj [("$ref", J.str "#/$defs/TriState"), ("ui", J.obj [("widget", J.str "select")])])
        ])
      ])
    ])
  ]

/-- `template.py`, `sections["C_volume_of_sales_and_population_exposure"]`. -/
def C_volume_of_sales_and_population_exposure : J :=
  J.obj [
    ("type", J.str "object"),
    ("additionalProperties", J.bool false),
    ("required", J.arr [J.str "sales_methodology", J.str "table_1_sales_by_region", J.str "sales_data_analysis",
      J.str "size_and_characteristics_of_population_using_device"]),
    ("properties", J.obj [
      ("sales_methodology", J.obj [
        ("type", J.str "object"),
        ("additionalProperties", J.bool false),
        ("required", J.arr [J.str "criteria_used_for_sales_data", J.str "market_history"]),
        ("properties", J.obj [
          ("criteria_used_for_sales_data", J.obj [
            ("type", J.str "object"),
            ("additionalProperties", J.bool false),
            ("properties", J.obj [
              ("devices_placed_on_market_or_put_into_service", J.obj [("type", J.str "boolean"), ("default", J.bool false)]),
              ("units_distributed_from_doc_or_ec_eu_mark_approval_to_end_date", J.obj [("type", J.str "boolean"), ("default", J.bool false)]),
              ("units_distributed_within_each_time_period", J.obj [("type", J.str "boolean"), ("default", J.bool false)]),
              ("episodes_of_use_for_reusable_devices", J.obj [("type", J.str "boolean"), ("default", J.bool false)]),
              ("active_installed_base", J.obj [("type", J.str "boolean"), ("default", J.bool false)]),
              ("units_implanted", J.obj [("type", J.str "boolean"), ("default", J.bool false)]),
              ("other", J.obj [
                ("type", J.str "object"),
                ("additionalProperties", J.bool false),
                ("required", J.arr [J.str "selected", J.str "rationale"]),
                ("properties", J.obj [
                  ("selected", J.obj [("type", J.str "boolean"), ("default", J.bool false)]),
                  ("rationale", J.obj [("type", J.str "string"), ("ui", J.obj [("widget", J.str "textarea")])])
                ])
              ])
            ])
          ]),
          ("market_history", J.obj [("type", J.str "string"), ("ui", J.obj [("widget", J.str "textarea")])])
        ])
      ]),
      ("table_1_sales_by_region", J.obj [
        ("type", J.str "object"),
        ("additionalProperties", J.bool false),
        ("required", J.arr [J.str "use_if_psur_frequency"]),
        ("properties", J.obj [
          ("use_if_psur_frequency", J.obj [("type", J.str "string"),
            ("enum", J.arr [J.str "ANNUALLY", J.str "EVERY_TWO_YEARS"]), ("ui", J.obj [("widget", J.str "select")])]),
          ("annual_format", J.obj [
            ("type", J.str "object"),
            ("additionalProperties", J.bool false),
            ("properties", J.obj [
              ("date_ranges", J.obj [("type", J.str "array"), ("minItems", J.num 4), ("maxItems", J.num 4),
                ("items", J.obj [("type", J.str "string")])]),
              ("rows", table_array
                [ "region", "preceding_12_month_periods", "current_data_collection_period" ]
                [
                  ("region", J.obj [("type", J.str "string")]),
                  ("preceding_12_month_periods", J.obj [("type", J.str "array"), ("minItems", J.num 3), ("maxItems", J.num 3),
                    ("items", J.obj [("type", J.arr [J.str "number", J.str "null"])])]),
                  ("current_data_collection_period", J.obj [("type", J.arr [J.str "number", J.str "null"])]),
                  ("percent_of_global_sales", J.obj [("type", J.arr [J.str "number", J.str "null"]),
                    ("minimum", J.num 0), ("maximum", J.num 100)])
                ]
                0)
            ])
          ]),
          ("every_two_years_format", J.obj [
            ("type", J.str "object"),
            ("additionalProperties", J.bool false),
            ("properties", J.obj [
              ("date_ranges", J.obj [("type", J.str "array"), ("minItems", J.num 4), ("maxItems", J.num 4),
                ("items", J.obj [("type", J.str "string")])]),
              ("rows", table_array
                [ "region", "period_values_12_month_each", "total_24_month" ]
                [
                  ("region", J.obj [("type", J.str "string")]),
                  ("period_values_12_month_each", J.obj [("type", J.str "array"), ("minItems", J.num 4), ("maxItems", J.num 4),
                    ("items", J.obj [("type", J.arr [J.str "number", J.str "null"])])]),
                  ("total_24_month", J.obj [("type", J.arr [J.str "number", J.str "null"])]),
                  ("percent_of_global_sales_24_month", J.obj [("type", J.arr [J.str "number", J.str "null"]),
                    ("minimum", J.num 0), ("maximum", J.num 100)])
                ]
                0)
            ])
          ])
        ]),
        ("allOf", J.arr [
          J.obj [("if", J.obj [("properties", J.obj [("use_if_psur_frequency", J.obj [("const", J.str "ANNUALLY")])])]),
                 ("then", J.obj [("required", J.arr [J.str "annual_format"])])],
          J.obj [("if", J.obj [("properties", J.obj [("use_if_psur_frequency", J.obj [("const", J.str "EVERY_TWO_YEARS")])])]),
                 ("then", J.obj [("required", J.arr [J.str "every_two_years_format"])])]
        ])
      ]),
      ("sales_data_analysis", J.obj [
        ("type", J.str "object"),
        ("additionalProperties", J.bool false),
        ("required", J.arr [J.str "narrative_analysis"]),
        ("properties", J.obj [
          ("sales_trend_over_time_chart_reference", J.obj [("type", J.str "string")]),
          ("narrative_analysis", J.obj [("type", J.str "string"), ("ui", J.obj [("widget", J.str "textarea")])])
        ])
      ]),
      ("size_and_characteristics_of_population_using_device", J.obj [
        ("type", J.str "object"),
        ("additionalProperties", J.bool false),
        ("required", J.arr [J.str "usage_frequency", J.str "estimated_size_of_patient_population_exposed",
          J.str "characteristics_of_patient_population_exposed"]),
        ("properties", J.obj [
          ("usage_frequency", J.obj [
            ("type", J.str "object"),
            ("additionalProperties", J.bool false),
            ("required", J.arr [J.str "single_use_per_patient", J.str "multiple_uses_per_patient"]),
            ("properties", J.obj [
              ("single_use_per_patient", J.obj [("$ref", J.str "#/$defs/TriState"), ("ui", J.obj [("widget", J.str "select")])]),
              ("multiple_uses_per_patient", J.obj [("$ref", J.str "#/$defs/TriState"), ("ui", J.obj [("widget", J.str "select")])]),
              ("average_uses_per_patient", J.obj [("type", J.arr [J.str "number", J.str "null"]), ("minimum", J.num 0)])
            ])
          ]),
          ("estimated_size_of_patient_population_exposed", J.obj [("type", J.str "string"), ("ui", J.obj [("widget", J.str "textarea")])]),
          ("characteristics_of_patient_population_exposed", J.obj [("type", J.str "string"), ("ui", J.obj [("widget", J.str "textarea")])])
        ])
      ])
    ])
  ]

/-- `template.py`, `sections["D_information_on_serious_incidents"]`. -/
def D_information_on_serious_incidents : J :=
  J.obj [
    ("type", J.str "object"),
    ("additionalProperties", J.bool false),
    ("required", J.arr [J.str "narrative_summary", J.str "table_2_serious_incidents_by_imdrf_annex_a_by_region",
      J.str "table_3_serious_incidents_by_imdrf_annex_c_investigation_findings_by_region",
      J.str "table_4_health_impact_by_investigation_conclusion"]),
    ("properties", J.obj [
      ("narrative_summary", J.obj [("type", J.str "string"), ("ui", J.obj [("widget", J.str "textarea")])]),
      ("table_2_serious_incidents_by_imdrf_annex_a_by_region", table_array
        [ "region", "imdrf_problem_code_and_term", "n_current_period" ]
        [
          ("region", J.obj [("type", J.str "string")]),
          ("imdrf_problem_code_and_term", J.obj [("type", J.str "string")]),
          ("n_current_period", J.obj [("type", J.arr [J.str "integer", J.str "null"]), ("minimum", J.num 0)]),
          ("rate_percent", J.obj [("type", J.arr [J.str "number", J.str "null"]), ("minimum", J.num 0), ("maximum", J.num 100)]),
          ("complaint_number", J.obj [("type", J.str "string")])
        ]
        0),
      ("table_3_serious_incidents_by_imdrf_annex_c_investigation_findings_by_region", table_array
        [ "region", "imdrf_cause_code_and_term", "n_current_period" ]
        [
          ("region", J.obj [("type", J.str "string")]),
          ("imdrf_cause_code_and_term", J.obj [("type", J.str "string")]),
          ("n_current_period", J.obj [("type", J.arr [J.str "integer", J.str "null"]), ("minimum", J.num 0)]),
          ("rate_percent", J.obj [("type", J.arr [J.str "number", J.str "null"]), ("minimum", J.num 0), ("maximum", J.num 100)]),
          ("complaint_number", J.obj [("type", J.str "string")])
        ]
        0),
      ("table_4_health_impact_by_investigation_conclusion", table_array
        [ "region", "imdrf_health_impact_annex_f_code_and_term", "number_of_serious_incidents" ]
        [
          ("region", J.obj [("type", J.str "string")]),
          ("imdrf_health_impact_annex_f_code_and_term", J.obj [("type", J.str "string")]),
          ("number_of_serious_incidents", J.obj [("type", J.arr [J.str "integer", J.str "null"]), ("minimum", J.num 0)]),
          ("investigation_conclusion_1", J.obj [("type", J.str "object"), ("additionalProperties", J.bool false),
            ("properties", J.obj [("code_and_term", J.obj [("type", J.str "string")]),
              ("percent", J.obj [("type", J.arr [J.str "number", J.str "null"]), ("minimum", J.num 0), ("maximum", J.num 100)])])]),
          ("investigation_conclusion_2", J.obj [("type", J.str "object"), ("additionalProperties", J.bool false),
            ("properties", J.obj [("code_and_term", J.obj [("type", J.str "string")]),
              ("percent", J.obj [("type", J.arr [J.str "number", J.str "null"]), ("minimum", J.num 0), ("maximum", J.num 100)])])]),
          ("investigation_conclusion_3", J.obj [("type", J.str "object"), ("additionalProperties", J.bool false),
            ("properties", J.obj [("code_and_term", J.obj [("type", J.str "string")]),
              ("percent", J.obj [("type", J.arr [J.str "number", J.str "null"]), ("minimum", J.num 0), ("maximum", J.num 100)])])]),
          ("investigation_conclusion_4", J.obj [("type", J.str "object"), ("additionalProperties", J.bool false),
            ("properties", J.obj [("code_and_term", J.obj [("type", J.str "string")]),
              ("percent", J.obj [("type", J.arr [J.str "number", J.str "null"]), ("minimum", J.num 0), ("maximum", J.num 100)])])])
        ]
        0),
      ("new_incident_types_identified_this_cycle", J.obj [("type", J.str "string"), ("ui", J.obj [("widget", J.str "textarea")])])
    ])
  ]

/-- `template.py`, `sections["E_customer_feedback"]`. -/
def E_customer_feedback : J :=
  J.obj [
    ("type", J.str "object"),
    ("additionalProperties", J.bool false),
    ("required", J.arr [J.str "summary", J.str "table_6_feedback_by_type_and_source"]),
    ("properties", J.obj [
      ("summary", J.obj [("type", J.str "string"), ("ui", J.obj [("widget", J.str "textarea")])]),
      ("table_6_feedback_by_type_and_source", table_array
        [ "feedback_type", "source", "count", "summary" ]
        [
          ("feedback_type", J.obj [("type", J.str "string")]),
          ("source", J.obj [("type", J.str "string")]),
          ("count", J.obj [("type", J.arr [J.str "integer", J.str "null"]), ("minimum", J.num 0)]),
          ("summary", J.obj [("type", J.str "string"), ("ui", J.obj [("widget", J.str "textarea")])])
        ]
        0)
    ])
  ]

/-- `template.py`, `sections["F_product_complaint_types_counts_and_rates"]`. -/
def F_product_complaint_types_counts_and_rates : J :=
  J.obj [
    ("type", J.str "object"),
    ("additionalProperties", J.bool false),
    ("required", J.arr [J.str "complaint_rate_calculation",
      J.str "annual_number_of_complaints_and_complaint_rate_by_harm_and_medical_device_problem",
      J.str "table_7_complaint_rate_and_count"]),
    ("properties", J.obj [
      ("complaint_rate_calculation", J.obj [
        ("type", J.str "object"),
        ("additionalProperties", J.bool false),
        ("required", J.arr [J.str "method_description_and_justification"]),
        ("properties", J.obj [
          ("method_description_and_justification", J.obj [("type", J.str "string"), ("ui", J.obj [("widget", J.str "textarea")])])
        ])
      ]),
      ("annual_number_of_complaints_and_complaint_rate_by_harm_and_medical_device_problem", J.obj [
        ("type", J.str "object"),
        ("additionalProperties", J.bool false),
        ("required", J.arr [J.str "risk_documentation_update_needed"]),
        ("properties", J.obj [
          ("commentary_context_for_exceedances", J.obj [("type", J.str "string"), ("ui", J.obj [("widget", J.str "textarea")])]),
          ("risk_documentation_update_needed", J.obj [("$ref", J.str "#/$defs/TriState"), ("ui", J.obj [("widget", J.str "select")])])
        ])
      ]),
      ("table_7_complaint_rate_and_count", J.obj [
        ("type", J.str "object"),
        ("additionalProperties", J.bool false),
        ("required", J.arr [J.str "use_if_psur_frequency"]),
        ("properties", J.obj [
          ("use_if_psur_frequency", J.obj [("type", J.str "string"),
            ("enum", J.arr [J.str "ANNUALLY", J.str "EVERY_TWO_YEARS"]), ("ui", J.obj [("widget", J.str "select")])]),
          ("annual_format", J.obj [
            ("type", J.str "object"),
            ("additionalProperties", J.bool false),
            ("required", J.arr [J.str "date_range", J.str "rows"]),
            ("properties", J.obj [
              ("date_range", J.obj [("type", J.str "string")]),
              ("rows", table_array
                [ "harm", "medical_device_problem" ]
                [
                  ("harm", J.obj [("type", J.str "string")]),
                  ("medical_device_problem", J.obj [("type", J.str "string")]),
                  ("current_12_month_complaint_count", J.obj [("type", J.arr [J.str "integer", J.str "null"]), ("minimum", J.num 0)]),
                  ("current_12_month_complaint_rate", J.obj [("type", J.arr [J.str "number", J.str "null"]), ("minimum", J.num 0)]),
                  ("max_expected_rate_of_occurrence_from_ract", J.obj [("type", J.arr [J.str "number", J.str "null"]), ("minimum", J.num 0)])
                ]
                0),
              ("grand_total", J.obj [
                ("type", J.str "object"),
                ("additionalProperties", J.bool false),
                ("properties", J.obj [
                  ("complaint_count", J.obj [("type", J.arr [J.str "integer", J.str "null"]), ("minimum", J.num 0)]),
                  ("complaint_rate", J.obj [("type", J.arr [J.str "number", J.str "null"]), ("minimum", J.num 0)])
                ])
              ])
            ])
          ]),
          ("every_two_years_format", J.obj [
            ("type", J.str "object"),
            ("additionalProperties", J.bool false),
            ("required", J.arr [J.str "date_ranges", J.str "rows"]),
            ("properties", J.obj [
              ("date_ranges", J.obj [("type", J.str "array"), ("minItems", J.num 2), ("maxItems", J.num 2),
                ("items", J.obj [("type", J.str "string")])]),
              ("rows", table_array
                [ "harm", "medical_device_problem" ]
                [
                  ("harm", J.obj [("type", J.str "string")]),
                  ("medical_device_problem", J.obj [("type", J.str "string")]),
                  ("period_1_complaint_count", J.obj [("type", J.arr [J.str "integer", J.str "null"]), ("minimum", J.num 0)]),
                  ("period_1_complaint_rate", J.obj [("type", J.arr [J.str "number", J.str "null"]), ("minimum", J.num 0)]),
                  ("period_2_complaint_count", J.obj [("type", J.arr [J.str "integer", J.str "null"]), ("minimum", J.num 0)]),
                  ("period_2_complaint_rate", J.obj [("type", J.arr [J.str "number", J.str "null"]), ("minimum", J.num 0)]),
                  ("max_expected_rate_of_occurrence_from_ract", J.obj [("type", J.arr [J.str "number", J.str "null"]), ("minimum", J.num 0)])
                ]
                0),
              ("grand_total", J.obj [
                ("type", J.str "object"),
                ("additionalProperties", J.bool false),
                ("properties", J.obj [
                  ("period_1_complaint_count", J.obj [("type", J.arr [J.str "integer", J.str "null"]), ("minimum", J.num 0)]),
                  ("period_1_complaint_rate", J.obj [("type", J.arr [J.str "number", J.str "null"]), ("minimum", J.num 0)]),
                  ("period_2_complaint_count", J.obj [("type", J.arr [J.str "integer", J.str "null"]), ("minimum", J.num 0)]),
                  ("period_2_complaint_rate", J.obj [("type", J.arr [J.str "number", J.str "null"]), ("minimum", J.num 0)])
                ])
              ])
            ])
          ])
        ]),
        ("allOf", J.arr [
          J.obj [("if", J.obj [("properties", J.obj [("use_if_psur_frequency", J.obj [("const", J.str "ANNUALLY")])])]),
                 ("then", J.obj [("required", J.arr [J.str "annual_format"])])],
          J.obj [("if", J.obj [("properties", J.obj [("use_if_psur_frequency", J.obj [("const", J.str "EVERY_TWO_YEARS")])])]),
                 ("then", J.obj [("required", J.arr [J.str "every_two_years_format"])])]
        ])
      ])
    ])
  ]

/-- `template.py`, `sections["G_information_from_trend_reporting"]`. -/
def G_information_from_trend_reporting : J :=
  J.obj [
    ("type", J.str "object"),
    ("additionalProperties", J.bool false),
    ("required", J.arr [J.str "overall_monthly_complaint_rate_trending", J.str "trend_reporting_summary"]),
    ("properties", J.obj [
      ("overall_monthly_complaint_rate_trending", J.obj [
        ("type", J.str "object"),
        ("additionalProperties", J.bool false),
        ("required", J.arr [J.str "breaches_commentary_and_actions"]),
        ("properties", J.obj [
          ("graph_reference", J.obj [("type", J.str "string")]),
          ("upper_control_limit_definition", J.obj [("type", J.str "string"), ("ui", J.obj [("widget", J.str "textarea")])]),
          ("breaches_commentary_and_actions", J.obj [("type", J.str "string"), ("ui", J.obj [("widget", J.str "textarea")])])
        ])
      ]),
      ("trend_reporting_summary", J.obj [
        ("type", J.str "object"),
        ("additionalProperties", J.bool false),
        ("required", J.arr [J.str "trend_reports"]),
        ("properties", J.obj [
          ("statement_if_not_applicable", J.obj [("type", J.str "string"), ("ui", J.obj [("widget", J.str "textarea")])]),
          ("trend_reports", table_array
            [ "affected_device_models_or_trade_names", "manufacturer_reference_number",
              "date_trend_first_identified", "current_status_of_trend_investigation" ]
            [
              ("affected_device_models_or_trade_names", J.obj [("type", J.str "string"), ("ui", J.obj [("widget", J.str "textarea")])]),
              ("manufacturer_reference_number", J.obj [("type", J.str "string")]),
              ("date_trend_first_identified", J.obj [("type", J.str "string"), ("format", J.str "date")]),
              ("date_reported_to_mhra_if_applicable", J.obj [("type", J.str "string"), ("format", J.str "date")]),
              ("current_status_of_trend_investigation", J.obj [("type", J.str "string"), ("ui", J.obj [("widget", J.str "textarea")])]),
              ("corrective_or_preventive_actions_resulted", J.obj [("type", J.str "string"), ("ui", J.obj [("widget", J.str "textarea")])]),
              ("fsca_reference_number_if_relevant", J.obj [("type", J.str "string")])
            ]
            0)
        ])
      ])
    ])
  ]

/-- `template.py`, `sections["H_information_from_fsca"]`. -/
def H_information_from_fsca : J :=
  J.obj [
    ("type", J.str "object"),
    ("additionalProperties", J.bool false),
    ("required", J.arr [J.str "summary_or_na_statement", J.str "table_8_fsca_initiated_current_period_and_open_fscas"]),
    ("properties", J.obj [
      ("summary_or_na_statement", J.obj [("type", J.str "string"), ("ui", J.obj [("widget", J.str "textarea")])]),
      ("table_8_fsca_initiated_current_period_and_open_fscas", table_array
        [ "type_of_action", "manufacturer_reference_number", "issuing_date_or_date_of_final_fsn",
          "scope_of_fsca_device_models_within_scope", "status_of_fsca",
          "rationale_and_description_of_action_taken", "impacted_regions" ]
        [
          ("type_of_action", J.obj [("type", J.str "string")]),
          ("manufacturer_reference_number", J.obj [("type", J.str "string")]),
          ("issuing_date_or_date_of_final_fsn", J.obj [("type", J.str "string"), ("format", J.str "date")]),
          ("scope_of_fsca_device_models_within_scope", J.obj [("type", J.str "string"), ("ui", J.obj [("widget", J.str "textarea")])]),
          ("status_of_fsca", J.obj [("type", J.str "string")]),
          ("rationale_and_description_of_action_taken", J.obj [("type", J.str "string"), ("ui", J.obj [("widget", J.str "textarea")])]),
          ("impacted_regions", J.obj [("type", J.str "string"), ("ui", J.obj [("widget", J.str "textarea")])]),
          ("date_reported_to_mhra_if_applicable", J.obj [("type", J.str "string"), ("format", J.str "date")])
        ]
        0)
    ])
  ]

/-- `template.py`, `sections["I_corrective_and_preventive_actions"]`. -/
def I_corrective_and_preventive_actions : J :=
  J.obj [
    ("type", J.str "object"),
    ("additionalProperties", J.bool false),
    ("required", J.arr [J.str "summary_or_na_statement", J.str "table_9_capa_initiated_current_reporting_period"]),
    ("properties", J.obj [
      ("summary_or_na_statement", J.obj [("type", J.str "string"), ("ui", J.obj [("widget", J.str "textarea")])]),
      ("table_9_capa_initiated_current_reporting_period", table_array
        [ "capa_number_or_manufacturer_reference_number", "initiation_date", "scope_of_capa", "status_of_capa",
          "capa_description", "root_cause", "effectiveness_of_capa", "target_date_for_completion_if_ongoing" ]
        [
          ("capa_number_or_manufacturer_reference_number", J.obj [("type", J.str "string")]),
          ("initiation_date", J.obj [("type", J.str "string"), ("format", J.str "date")]),
          ("scope_of_capa", J.obj [("type", J.str "string"), ("ui", J.obj [("widget", J.str "textarea")])]),
          ("status_of_capa", J.obj [("type", J.str "string")]),
          ("capa_description", J.obj [("type", J.str "string"), ("ui", J.obj [("widget", J.str "textarea")])]),
          ("root_cause", J.obj [("type", J.str "string"), ("ui", J.obj [("widget", J.str "textarea")])]),
          ("effectiveness_of_capa", J.obj [("type", J.str "string"), ("ui", J.obj [("widget", J.str "textarea")])]),
          ("target_date_for_completion_if_ongoing", J.obj [("type", J.str "string"), ("format", J.str "date")])
        ]
        0)
    ])
  ]

/-- `template.py`, `sections["J_scientific_literature_review"]`. -/
def J_scientific_literature_review : J :=
  J.obj [
    ("type", J.str "object"),
    ("additionalProperties", J.bool false),
    ("required", J.arr [J.str "literature_search_methodology", J.str "summary_of_new_data_performance_or_safety"]),
    ("properties", J.obj [
      ("literature_search_methodology", J.obj [("type", J.str "string"), ("ui", J.obj [("widget", J.str "textarea")])]),
      ("number_of_relevant_articles_identified", J.obj [("type", J.arr [J.str "integer", J.str "null"]), ("minimum", J.num 0)]),
      ("summary_of_new_data_performance_or_safety", J.obj [("type", J.str "string"), ("ui", J.obj [("widget", J.str "textarea")])]),
      ("newly_observed_uses", J.obj [("type", J.str "string"), ("ui", J.obj [("widget", J.str "textarea")])]),
      ("previously_unassessed_risks", J.obj [("type", J.str "string"), ("ui", J.obj [("widget", J.str "textarea")])]),
      ("state_of_the_art_changes", J.obj [("type", J.str "string"), ("ui", J.obj [("widget", J.str "textarea")])]),
      ("comparison_with_similar_devices", J.obj [("type", J.str "string"), ("ui", J.obj [("widget", J.str "textarea")])]),
      ("technical_documentation_search_results_reference", J.obj [("type", J.str "string"), ("ui", J.obj [("widget", J.str "text")])])
    ])
  ]

/-- `template.py`, `sections["K_review_of_external_databases_and_registries"]`. -/
def K_review_of_external_databases_and_registries : J :=
  J.obj [
    ("type", J.str "object"),
    ("additionalProperties", J.bool false),
    ("required", J.arr [J.str "registries_reviewed_summary", J.str "table_10_adverse_events_and_recalls"]),
    ("properties", J.obj [
      ("registries_reviewed_summary", J.obj [("type", J.str "string"), ("ui", J.obj [("widget", J.str "textarea")])]),
      ("table_10_adverse_events_and_recalls", table_array
        [ "database_or_registry", "total_matches", "relevant_findings" ]
        [
          ("database_or_registry", J.obj [("type", J.str "string")]),
          ("total_matches", J.obj [("type", J.arr [J.str "integer", J.str "null"]), ("minimum", J.num 0)]),
          ("relevant_findings", J.obj [("type", J.str "string"), ("ui", J.obj [("widget", J.str "textarea")])]),
          ("benchmark_vs_similar_devices", J.obj [("type", J.str "string"), ("ui", J.obj [("widget", J.str "textarea")])]),
          ("regulatory_actions_affecting_similar_devices", J.obj [("type", J.str "string"), ("ui", J.obj [("widget", J.str "textarea")])]),
          ("rmf_update_reference", J.obj [("type", J.str "string")])
        ]
        0)
    ])
  ]

/-- `template.py`, `sections["L_pmcf"]`. -/
def L_pmcf : J :=
  J.obj [
    ("type", J.str "object"),
    ("additionalProperties", J.bool false),
    ("required", J.arr [J.str "summary_or_na_statement", J.str "table_11_pmcf_activities"]),
    ("properties", J.obj [
      ("summary_or_na_statement", J.obj [("type", J.str "string"), ("ui", J.obj [("widget", J.str "textarea")])]),
      ("table_11_pmcf_activities", table_array
        [ "specific_pmcf_activities", "key_findings", "impact_on_safety_performance" ]
        [
          ("specific_pmcf_activities", J.obj [("type", J.str "string"), ("ui", J.obj [("widget", J.str "textarea")])]),
          ("key_findings", J.obj [("type", J.str "string"), ("ui", J.obj [("widget", J.str "textarea")])]),
          ("impact_on_safety_performance", J.obj [("type", J.str "string"), ("ui", J.obj [("widget", J.str "textarea")])]),
          ("rmf_or_cer_update", J.obj [("type", J.str "string"), ("ui", J.obj [("widget", J.str "textarea")])]),
          ("pmcf_evaluation_report_reference", J.obj [("type", J.str "string")])
        ]
        0)
    ])
  ]

/-- `template.py`, `sections["M_findings_and_conclusions"]`. -/
def M_findings_and_conclusions : J :=
  J.obj [
    ("type", J.str "object"),
    ("additionalProperties", J.bool false),
    ("required", J.arr [J.str "benefit_risk_profile_conclusion", J.str "overall_performance_conclusion", J.str "actions_taken_or_planned"]),
    ("properties", J.obj [
      ("benefit_risk_profile_conclusion", J.obj [("type", J.str "string"), ("ui", J.obj [("widget", J.str "textarea")])]),
      ("intended_benefits_achieved", J.obj [("type", J.str "string"), ("ui", J.obj [("widget", J.str "textarea")])]),
      ("limitations_of_data_and_conclusion", J.obj [("type", J.str "string"), ("ui", J.obj [("widget", J.str "textarea")])]),
      ("new_or_emerging_risks_or_new_benefits", J.obj [("type", J.str "string"), ("ui", J.obj [("widget", J.str "textarea")])]),
      ("actions_taken_or_planned", J.obj [
        ("type", J.str "object"),
        ("additionalProperties", J.bool false),
        ("required", J.arr [J.str "action_details_and_follow_up"]),
        ("properties", J.obj [
          ("benefit_risk_assessment_update", J.obj [("type", J.str "boolean"), ("default", J.bool false)]),
          ("risk_management_file_update", J.obj [("type", J.str "boolean"), ("default", J.bool false)]),
          ("product_design_update", J.obj [("type", J.str "boolean"), ("default", J.bool false)]),
          ("manufacturing_process_update", J.obj [("type", J.str "boolean"), ("default", J.bool false)]),
          ("ifu_or_labeling_update", J.obj [("type", J.str "boolean"), ("default", J.bool false)]),
          ("clinical_evaluation_report_update", J.obj [("type", J.str "boolean"), ("default", J.bool false)]),
          ("sscp_update_if_applicable", J.obj [("type", J.str "boolean"), ("default", J.bool false)]),
          ("capa_initiated", J.obj [("type", J.str "boolean"), ("default", J.bool false)]),
          ("fsca_initiated", J.obj [("type", J.str "boolean"), ("default", J.bool false)]),
          ("action_details_and_follow_up", J.obj [("type", J.str "string"), ("ui", J.obj [("widget", J.str "textarea")])])
        ])
      ]),
      ("overall_performance_conclusion", J.obj [("type", J.str "string"), ("ui", J.obj [("widget", J.str "textarea")])])
    ])
  ]

/-- The thirteen section schemas, in the order `template.py` assigns them
into `schema["$defs"]["sections"]["properties"]` (the source starts from an
empty dict and inserts these keys one by one; this list is the final
contents of that dict). -/
def sectionsProperties : List (String × J) := [
  ("A_executive_summary", A_executive_summary),
  ("B_scope_and_device_description", B_scope_and_device_description),
  ("C_volume_of_sales_and_population_exposure", C_volume_of_sales_and_population_exposure),
  ("D_information_on_serious_incidents", D_information_on_serious_incidents),
  ("E_customer_feedback", E_customer_feedback),
  ("F_product_complaint_types_counts_and_rates", F_product_complaint_types_counts_and_rates),
  ("G_information_from_trend_reporting", G_information_from_trend_reporting),
  ("H_information_from_fsca", H_information_from_fsca),
  ("I_corrective_and_preventive_actions", I_corrective_and_preventive_actions),
  ("J_scientific_literature_review", J_scientific_literature_review),
  ("K_review_of_external_databases_and_registries", K_review_of_external_databases_and_registries),
  ("L_pmcf", L_pmcf),
  ("M_findings_and_conclusions", M_findings_and_conclusions)
]

/-- `template.py`, the top-level `schema` value, in its final state (after
the thirteen in-place section insertions). -/
def schema : J :=
  J.obj [
    ("$schema", J.str "https://json-schema.org/draft/2020-12/schema"),
    ("$id", J.str "urn:coopersurgical:psur:FormQAR-054:ui-schema:revC"),
    ("title", J.str "FormQAR-054 PSUR UI Schema (Rev C)"),
    ("description", J.str "UI-oriented JSON Schema for FormQAR-054 (PSUR). Includes field types, required/optional, validation rules, and basic UI hints."),
    ("type", J.str "object"),
    ("additionalProperties", J.bool false),
    ("required", J.arr [J.str "form", J.str "psur_cover_page", J.str "sections"]),
    ("properties", J.obj [
      ("form", J.obj [
        ("type", J.str "object"),
        ("additionalProperties", J.bool false),
        ("required", J.arr [J.str "form_id", J.str "form_title", J.str "revision", J.str "document_control"]),
        ("properties", J.obj [
          ("form_id", J.obj [("type", J.str "string"), ("const", J.str "FormQAR-054")]),
          ("form_title", J.obj [("type", J.str "string"), ("const", J.str "Periodic Safety Update Report (PSUR)")]),
          ("revision", J.obj [("type", J.str "string"), ("default", J.str "C")]),
          ("document_control", J.obj [
            ("type", J.str "object"),
            ("additionalProperties", J.bool false),
            ("required", J.arr [J.str "product_or_product_family", J.str "infocard_number"]),
            ("properties", J.obj [
              ("product_or_product_family", J.obj [("type", J.str "string"), ("minLength", J.num 1),
                ("ui", J.obj [("widget", J.str "text"), ("label", J.str "Product or Product Family")])]),
              ("infocard_number", J.obj [("type", J.str "string"), ("minLength", J.num 1),
                ("ui", J.obj [("widget", J.str "text"), ("label", J.str "Infocard Number")])]),
              ("page_control", J.obj [
                ("type", J.str "object"),
                ("additionalProperties", J.bool false),
                ("properties", J.obj [
                  ("current_page", J.obj [("type", J.arr [J.str "integer", J.str "null"]), ("minimum", J.num 1),
                    ("ui", J.obj [("widget", J.str "number")])]),
                  ("total_pages", J.obj [("type", J.arr [J.str "integer", J.str "null"]), ("minimum", J.num 1),
                    ("ui", J.obj [("widget", J.str "number")])])
                ])
              ])
            ])
          ])
        ])
      ]),
      ("psur_cover_page", J.obj [
        ("type", J.str "object"),
        ("additionalProperties", J.bool false),
        ("required", J.arr [J.str "manufacturer_information", J.str "regulatory_information", J.str "document_information"]),
        ("properties", J.obj [
          ("manufacturer_information", J.obj [
            ("type", J.str "object"),
            ("additionalProperties", J.bool false),
            ("required", J.arr [J.str "company_name", J.str "address_lines", J.str "manufacturer_srn", J.str "authorized_representative"]),
            ("properties", J.obj [
              ("company_name", J.obj [("type", J.str "string"), ("minLength", J.num 1),
                ("default", J.str "CooperSurgical, Inc."), ("ui", J.obj [("widget", J.str "text")])]),
              ("address_lines", J.obj [("type", J.str "array"), ("minItems", J.num 1),
                ("items", J.obj [("type", J.str "string"), ("minLength", J.num 1)]),
                ("ui", J.obj [("widget", J.str "textarea"), ("label", J.str "Manufacturer Address (lines)")])]),
              ("manufacturer_srn", J.obj [("type", J.str "string"),
                ("pattern", J.str "^[A-Z]\x7b2\x7d-MF-\\d\x7b10,\x7d$"),
                ("default", J.str "US-MF-000002607"),
                ("ui", J.obj [("widget", J.str "text"), ("help", J.str "Format: US-MF-##########")])]),
              ("authorized_representative", J.obj [
                ("type", J.str "object"),
                ("additionalProperties", J.bool false),
                ("required", J.arr [J.str "is_applicable"]),
                ("properties", J.obj [
                  ("is_applicable", J.obj [("type", J.str "boolean"), ("default", J.bool true),
                    ("ui", J.obj [("widget", J.str "checkbox"), ("label", J.str "Authorized Representative applicable?")])]),
                  ("name", J.obj [("type", J.str "string"), ("minLength", J.num 1),
                    ("default", J.str "CooperSurgical Distribution B.V."), ("ui", J.obj [("widget", J.str "text")])]),
                  ("address_lines", J.obj [("type", J.str "array"), ("minItems", J.num 1),
                    ("items", J.obj [("type", J.str "string"), ("minLength", J.num 1)]),
                    ("default", J.arr [J.str "Celsiusweg 35", J.str "5928 PR Venlo", J.str "The Netherlands"]),
                    ("ui", J.obj [("widget", J.str "textarea")])]),
                  ("authorized_representative_srn", J.obj [("type", J.str "string"),
                    ("pattern", J.str "^[A-Z]\x7b2\x7d-AR-\\d\x7b10,\x7d$"),
                    ("default", J.str "NL-AR-0000000059"),
                    ("ui", J.obj [("widget", J.str "text"), ("help", J.str "Format: NL-AR-##########")])])
                ]),
                ("allOf", J.arr [
                  J.obj [("if", J.obj [("properties", J.obj [("is_applicable", J.obj [("const", J.bool true)])])]),
                         ("then", J.obj [("required", J.arr [J.str "name", J.str "address_lines", J.str "authorized_representative_srn"])])]
                ])
              ])
            ])
          ]),
          ("regulatory_information", J.obj [
            ("type", J.str "object"),
            ("additionalProperties", J.bool false),
            ("required", J.arr [J.str "certificate_number", J.str "date_of_issue", J.str "notified_body",
              J.str "psur_available_within_3_working_days"]),
            ("properties", J.obj [
              ("certificate_number", J.obj [("type", J.str "string"), ("minLength", J.num 1), ("ui", J.obj [("widget", J.str "text")])]),
              ("date_of_issue", J.obj [("type", J.str "string"), ("format", J.str "date"), ("ui", J.obj [("widget", J.str "date")])]),
              ("notified_body", J.obj [
                ("type", J.str "object"),
                ("additionalProperties", J.bool false),
                ("required", J.arr [J.str "name", J.str "number"]),
                ("properties", J.obj [
                  ("name", J.obj [("type", J.str "string"), ("minLength", J.num 1),
                    ("default", J.str "BSI Group The Netherlands B.V."), ("ui", J.obj [("widget", J.str "text")])]),
                  ("number", J.obj [("type", J.str "string"), ("pattern", J.str "^\\d\x7b4\x7d$"),
                    ("default", J.str "2797"), ("ui", J.obj [("widget", J.str "text"), ("help", J.str "4-digit NB number")])])
                ])
              ]),
              ("psur_available_within_3_working_days", J.obj [("type", J.str "boolean"), ("default", J.bool true),
                ("ui", J.obj [("widget", J.str "checkbox")])])
            ])
          ]),
          ("document_information", J.obj [
            ("type", J.str "object"),
            ("additionalProperties", J.bool false),
            ("required", J.arr [J.str "data_collection_period", J.str "psur_cadence"]),
            ("properties", J.obj [
              ("data_collection_period", J.obj [
                ("type", J.str "object"),
                ("additionalProperties", J.bool false),
                ("required", J.arr [J.str "start_date", J.str "end_date"]),
                ("properties", J.obj [
                  ("start_date", J.obj [("type", J.str "string"), ("format", J.str "date"), ("ui", J.obj [("widget", J.str "date")])]),
                  ("end_date", J.obj [("type", J.str "string"), ("format", J.str "date"), ("ui", J.obj [("widget", J.str "date")])])
                ]),
                ("allOf", J.arr [
                  J.obj [("if", J.obj [("required", J.arr [J.str "start_date", J.str "end_date"])]),
                         ("then", J.obj [("properties", J.obj [("end_date", J.obj [("format", J.str "date")])])])]
                ])
              ]),
              ("psur_cadence", J.obj [("type", J.str "string"),
                ("enum", J.arr [J.str "ANNUALLY", J.str "EVERY_TWO_YEARS"]), ("ui", J.obj [("widget", J.str "select")])])
            ])
          ])
        ])
      ]),
      ("sections", J.obj [("$ref", J.str "#/$defs/sections")])
    ]),
    ("$defs", J.obj [
      ("TriState", J.obj [("type", J.str "string"),
        ("enum", J.arr [J.str "YES", J.str "NO", J.str "NOT_SELECTED"]), ("default", J.str "NOT_SELECTED")]),
      ("YesNoNA", J.obj [("type", J.str "string"),
        ("enum", J.arr [J.str "YES", J.str "NO", J.str "N_A", J.str "NOT_SELECTED"]), ("default", J.str "NOT_SELECTED")]),
      ("MDRClass", J.obj [("type", J.str "string"),
        ("enum", J.arr [J.str "CLASS_IIA", J.str "CLASS_IIB", J.str "CLASS_III", J.str "NOT_SELECTED"]), ("default", J.str "NOT_SELECTED")]),
      ("USFDAClass", J.obj [("type", J.str "string"),
        ("enum", J.arr [J.str "CLASS_I", J.str "CLASS_II", J.str "CLASS_III", J.str "NOT_SELECTED"]), ("default", J.str "NOT_SELECTED")]),
      ("sections", J.obj [
        ("type", J.str "object"),
        ("additionalProperties", J.bool false),
        ("required", J.arr [J.str "A_executive_summary", J.str "B_scope_and_device_description",
          J.str "C_volume_of_sales_and_population_exposure", J.str "D_information_on_serious_incidents",
          J.str "E_customer_feedback", J.str "F_product_complaint_types_counts_and_rates",
          J.str "G_information_from_trend_reporting", J.str "H_information_from_fsca",
          J.str "I_corrective_and_preventive_actions", J.str "J_scientific_literature_review",
          J.str "K_review_of_external_databases_and_registries", J.str "L_pmcf", J.str "M_findings_and_conclusions"]),
        ("properties", J.obj sectionsProperties)
      ])
    ])
  ]

/-- `scripts/generate_template_json.py`, the `meta` block. -/
def meta : J :=
  J.obj [
    ("id", J.str "FormQAR-054_UI_SCHEMA_PACK"),
    ("source_file", J.str "template.py"),
    ("revision", J.str "C"),
    ("renderer_targets", J.arr [J.str "docx", J.str "pdf", J.str "web"]),
    ("preserve_layout_fidelity", J.bool true)
  ]

/-- `scripts/generate_template_json.py`, the `theme` block. -/
def theme : J :=
  J.obj [
    ("word_form_fidelity", J.obj [
      ("fontFamily", J.str "Arial"),
      ("fontSizePt", J.num 10),
      ("lineHeight", J.num 1.15),
      ("sectionTitleWeight", J.num 700),
      ("blockSpacingPx", J.num 6),
      ("table", J.obj [
        ("border", J.str "1px solid #000000"),
        ("gridLines", J.bool true),
        ("headerWeight", J.num 700),
        ("cellPaddingPx", J.num 4)
      ]),
      ("inputs", J.obj [
        ("text", J.obj [("heightPx", J.num 24)]),
        ("textarea", J.obj [("minHeightPx", J.num 60)]),
        ("radioInline", J.bool true)
      ])
    ])
  ]

/-- `scripts/generate_template_json.py`, the `tables` dict of the layout
block, in insertion order. -/
def tables : List (String × J) := [
  ("C.table_1_annual_sales", J.obj [
    ("columns", J.arr [
      J.obj [("key", J.str "region"), ("header", J.str "Region")],
      J.obj [("key", J.str "preceding_period_1"), ("header", J.str "Period 1")],
      J.obj [("key", J.str "preceding_period_2"), ("header", J.str "Period 2")],
      J.obj [("key", J.str "preceding_period_3"), ("header", J.str "Period 3")],
      J.obj [("key", J.str "current_data_collection_period"), ("header", J.str "Current Period")],
      J.obj [("key", J.str "percent_of_global_sales"), ("header", J.str "% Global Sales")]
    ]),
    ("header_rows", J.num 3),
    ("merged_cells", J.arr [
      J.obj [("row", J.num 0), ("col_start", J.num 1), ("col_end", J.num 3), ("label", J.str "Preceding 12-Month Periods")],
      J.obj [("row", J.num 0), ("col_start", J.num 4), ("col_end", J.num 4), ("label", J.str "Current Data Collection Period")],
      J.obj [("row", J.num 0), ("col_start", J.num 5), ("col_end", J.num 5), ("label", J.str "% of Global Sales")]
    ])
  ]),
  ("D.table_2", J.obj [
    ("columns", J.arr [
      J.obj [("key", J.str "region"), ("header", J.str "Region")],
      J.obj [("key", J.str "imdrf_problem_code_and_term"), ("header", J.str "IMDRF Problem Code & Term")],
      J.obj [("key", J.str "n_current_period"), ("header", J.str "N (Current Period)")],
      J.obj [("key", J.str "rate_percent"), ("header", J.str "Rate (%)")],
      J.obj [("key", J.str "complaint_number"), ("header", J.str "Complaint Number")]
    ])
  ]),
  ("D.table_3", J.obj [
    ("columns", J.arr [
      J.obj [("key", J.str "region"), ("header", J.str "Region")],
      J.obj [("key", J.str "imdrf_cause_code_and_term"), ("header", J.str "IMDRF Cause Code & Term")],
      J.obj [("key", J.str "n_current_period"), ("header", J.str "N (Current Period)")],
      J.obj [("key", J.str "rate_percent"), ("header", J.str "Rate (%)")],
      J.obj [("key", J.str "complaint_number"), ("header", J.str "Complaint Number")]
    ])
  ]),
  ("D.table_4", J.obj [
    ("columns", J.arr [
      J.obj [("key", J.str "region"), ("header", J.str "Region")],
      J.obj [("key", J.str "imdrf_health_impact_annex_f_code_and_term"), ("header", J.str "IMDRF Health Impact (Annex F)")],
      J.obj [("key", J.str "number_of_serious_incidents"), ("header", J.str "# Serious Incidents")],
      J.obj [("key", J.str "investigation_conclusion_1"), ("header", J.str "Investigation Conclusion 1")],
      J.obj [("key", J.str "investigation_conclusion_2"), ("header", J.str "Investigation Conclusion 2")],
      J.obj [("key", J.str "investigation_conclusion_3"), ("header", J.str "Investigation Conclusion 3")],
      J.obj [("key", J.str "investigation_conclusion_4"), ("header", J.str "Investigation Conclusion 4")]
    ])
  ]),
  ("E.table_6", J.obj [
    ("columns", J.arr [
      J.obj [("key", J.str "feedback_type"), ("header", J.str "Feedback Type")],
      J.obj [("key", J.str "source"), ("header", J.str "Source")],
      J.obj [("key", J.str "count"), ("header", J.str "Count")],
      J.obj [("key", J.str "summary"), ("header", J.str "Summary")]
    ])
  ]),
  ("F.table_7_annually_harm_problem", J.obj [
    ("columns", J.arr [
      J.obj [("key", J.str "label"), ("header", J.str "Harm / Medical Device Problem")],
      J.obj [("key", J.str "current_period_value"), ("header", J.str "Current Period (Rate / Count)")],
      J.obj [("key", J.str "max_expected_rate_from_ract"), ("header", J.str "Max Expected Rate (RACT)")]
    ])
  ]),
  ("G.trend_reports", J.obj [
    ("columns", J.arr [
      J.obj [("key", J.str "affected_device_models_or_trade_names"), ("header", J.str "Affected Device Models / Trade Names")],
      J.obj [("key", J.str "manufacturer_reference_number"), ("header", J.str "Manufacturer Ref No.")],
      J.obj [("key", J.str "date_trend_first_identified"), ("header", J.str "Date Trend First Identified")],
      J.obj [("key", J.str "date_reported_to_mhra_if_applicable"), ("header", J.str "Date Reported to MHRA")],
      J.obj [("key", J.str "current_status_of_trend_investigation"), ("header", J.str "Status of Investigation")],
      J.obj [("key", J.str "corrective_or_preventive_actions_resulted"), ("header", J.str "Corrective/Preventive Actions")],
      J.obj [("key", J.str "fsca_reference_number_if_relevant"), ("header", J.str "FSCA Ref No.")]
    ])
  ]),
  ("H.table_8_fsca", J.obj [
    ("columns", J.arr [
      J.obj [("key", J.str "type_of_action"), ("header", J.str "Type of Action")],
      J.obj [("key", J.str "manufacturer_reference_number"), ("header", J.str "Manufacturer Ref No.")],
      J.obj [("key", J.str "issuing_date_or_date_of_final_fsn"), ("header", J.str "Issuing Date / Date of Final FSN")],
      J.obj [("key", J.str "scope_of_fsca_device_models_within_scope"), ("header", J.str "Scope of FSCA")],
      J.obj [("key", J.str "status_of_fsca"), ("header", J.str "Status of FSCA")],
      J.obj [("key", J.str "rationale_and_description_of_action_taken"), ("header", J.str "Rationale & Description")],
      J.obj [("key", J.str "impacted_regions"), ("header", J.str "Impacted Regions")],
      J.obj [("key", J.str "date_reported_to_mhra_if_applicable"), ("header", J.str "Date Reported to MHRA")]
    ])
  ]),
  ("I.table_9_capa", J.obj [
    ("columns", J.arr [
      J.obj [("key", J.str "capa_number_or_manufacturer_reference_number"), ("header", J.str "CAPA Number / Ref No.")],
      J.obj [("key", J.str "initiation_date"), ("header", J.str "Initiation Date")],
      J.obj [("key", J.str "scope_of_capa"), ("header", J.str "Scope of CAPA")],
      J.obj [("key", J.str "status_of_capa"), ("header", J.str "Status")],
      J.obj [("key", J.str "capa_description"), ("header", J.str "CAPA Description")],
      J.obj [("key", J.str "root_cause"), ("header", J.str "Root Cause")],
      J.obj [("key", J.str "effectiveness_of_capa"), ("header", J.str "Effectiveness")],
      J.obj [("key", J.str "target_date_for_completion_if_ongoing"), ("header", J.str "Target Date")]
    ])
  ]),
  ("K.table_10", J.obj [
    ("columns", J.arr [
      J.obj [("key", J.str "database_or_registry"), ("header", J.str "Database / Registry")],
      J.obj [("key", J.str "total_matches"), ("header", J.str "Total Matches")],
      J.obj [("key", J.str "relevant_findings"), ("header", J.str "Relevant Findings")],
      J.obj [("key", J.str "benchmark_vs_similar_devices"), ("header", J.str "Benchmark vs Similar Devices")],
      J.obj [("key", J.str "regulatory_actions_affecting_similar_devices"), ("header", J.str "Regulatory Actions")],
      J.obj [("key", J.str "rmf_update_reference"), ("header", J.str "RMF Update Ref")]
    ])
  ]),
  ("L.table_11_pmcf", J.obj [
    ("columns", J.arr [
      J.obj [("key", J.str "specific_pmcf_activities"), ("header", J.str "PMCF Activities")],
      J.obj [("key", J.str "key_findings"), ("header", J.str "Key Findings")],
      J.obj [("key", J.str "impact_on_safety_performance"), ("header", J.str "Impact on Safety/Performance")],
      J.obj [("key", J.str "rmf_or_cer_update"), ("header", J.str "RMF/CER Update")],
      J.obj [("key", J.str "pmcf_evaluation_report_reference"), ("header", J.str "PMCF Report Ref")]
    ])
  ]),
  ("B.associated_documents", J.obj [
    ("columns", J.arr [
      J.obj [("key", J.str "document_type"), ("header", J.str "Document Type")],
      J.obj [("key", J.str "document_number"), ("header", J.str "Document Number")],
      J.obj [("key", J.str "document_title"), ("header", J.str "Document Title")]
    ]),
    ("prefill_rows", J.arr [J.str "PMS Plan", J.str "Clinical Evaluation Report", J.str "PMCF Plan"])
  ]),
  ("B.mdr_devices_table", J.obj [
    ("columns", J.arr [
      J.obj [("key", J.str "basic_udi_di"), ("header", J.str "Basic UDI-DI")],
      J.obj [("key", J.str "device_trade_name"), ("header", J.str "Device Trade Name")],
      J.obj [("key", J.str "emdn_code"), ("header", J.str "EMDN Code")],
      J.obj [("key", J.str "changes_from_previous_psur"), ("header", J.str "Changes from Previous PSUR")]
    ])
  ])
]

/-- `scripts/generate_template_json.py`, the `layout` block. -/
def layout : J :=
  J.obj [
    ("pageModel", J.str "A4"),
    ("section_order_locked", J.bool true),
    ("typography_lock", J.obj [
      ("fontFamily", J.str "Arial"),
      ("fontSizePt", J.num 10),
      ("lineHeight", J.num 1.15)
    ]),
    ("tables", J.obj tables)
  ]

/-- `scripts/generate_template_json.py`, the `section_keys` list. -/
def section_keys : List String := [
  "A_executive_summary",
  "B_scope_and_device_description",
  "C_volume_of_sales_and_population_exposure",
  "D_information_on_serious_incidents",
  "E_customer_feedback",
  "F_product_complaint_types_counts_and_rates",
  "G_information_from_trend_reporting",
  "H_information_from_fsca",
  "I_corrective_and_preventive_actions",
  "J_scientific_literature_review",
  "K_review_of_external_databases_and_registries",
  "L_pmcf",
  "M_findings_and_conclusions"
]

/-- `scripts/generate_template_json.py`, the final `ui_sections` dict: the
loop `for sk in section_keys` inserts one entry per section key with the
title from `section_titles`, then the F entry is extended in place with the
hierarchical-table rendering hint for `table_7_complaint_rate_and_count`.
This definition is that final state, with the title strings inlined. -/
def ui_sections : List (String × J) := [
  ("A_executive_summary", J.obj [("ui:title", J.str "Section A: Executive Summary")]),
  ("B_scope_and_device_description", J.obj [("ui:title", J.str "Section B: Scope and Device Description")]),
  ("C_volume_of_sales_and_population_exposure", J.obj [("ui:title", J.str "Section C: Volume of Sales and Population Exposure")]),
  ("D_information_on_serious_incidents", J.obj [("ui:title", J.str "Section D: Information on Serious Incidents")]),
  ("E_customer_feedback", J.obj [("ui:title", J.str "Section E: Customer Feedback")]),
  ("F_product_complaint_types_counts_and_rates", J.obj [
    ("ui:title", J.str "Section F: Product Complaint Types, Complaint Counts, and Complaint Rates"),
    ("table_7_complaint_rate_and_count", J.obj [
      ("ui:field", J.str "HierarchicalTable"),
      ("ui:options", J.obj [
        ("gridLines", J.bool true),
        ("headerRepeat", J.bool true),
        ("rowIndentFieldWhen", J.obj [("row_type", J.str "MEDICAL_DEVICE_PROBLEM")]),
        ("cellTemplate", J.obj [("current_period_value", J.str "stacked_rate_count")])
      ])
    ])
  ]),
  ("G_information_from_trend_reporting", J.obj [("ui:title", J.str "Section G: Information from Trend Reporting")]),
  ("H_information_from_fsca", J.obj [("ui:title", J.str "Section H: Information from Field Safety Corrective Actions (FSCA)")]),
  ("I_corrective_and_preventive_actions", J.obj [("ui:title", J.str "Section I: Corrective and Preventive Actions")]),
  ("J_scientific_literature_review", J.obj [("ui:title", J.str "Section J: Scientific Literature Review")]),
  ("K_review_of_external_databases_and_registries", J.obj [("ui:title", J.str "Section K: Review of External Databases and Registries")]),
  ("L_pmcf", J.obj [("ui:title", J.str "Section L: Post-Market Clinical Follow-up (PMCF)")]),
  ("M_findings_and_conclusions", J.obj [("ui:title", J.str "Section M: Findings and Conclusions")])
]

/-- `scripts/generate_template_json.py`, the `ui_schema` value. The Python
`{"ui:order": section_keys, **ui_sections}` splice makes the sections
object hold `ui:order` followed by the thirteen per-section entries. -/
def ui_schema : J :=
  J.obj [
    ("ui:globalOptions", J.obj [
      ("validateOn", J.str "blur"),
      ("showErrors", J.str "inline"),
      ("lockSectionOrder", J.bool true)
    ]),
    ("sections", J.obj (("ui:order", J.arr (section_keys.map J.str)) :: ui_sections))
  ]

/-- `scripts/generate_template_json.py`, the packaging step applied to a
schema value: the `template_json` dict literal with its five keys, wrapping
the given schema verbatim. -/
def templateWith (sc : J) : J :=
  J.obj [
    ("meta", meta),
    ("schema", sc),
    ("uiSchema", ui_schema),
    ("layout", layout),
    ("theme", theme)
  ]

/-- `scripts/generate_template_json.py`, the `template_json` value actually
produced: the builder's `schema` (brought into scope by executing the
stripped `template.py` source) wrapped by `templateWith`. -/
def template_json : J := templateWith schema

/-- The assembler as a function of the builder's output. The script
executes the builder source and then evaluates the `template_json` dict
literal, which reads the name `schema`: if the builder source did not bind
`schema`, that evaluation raises `NameError` before the output file is
opened (modelled by `none`); if `schema` is bound to any value at all, the
script wraps it with no inspection of its contents and emits the result. -/
def assemble : Option J → Option J
  | none => none
  | some sc => some (templateWith sc)

/-- The `required` list of a schema object, as strings (empty when absent,
as JSON Schema treats a missing `required` as the empty requirement). -/
def J.requiredList (j : J) : List String :=
  match j.lookup "required" with
  | some (J.arr xs) => xs.filterMap (fun x => match x with | J.str s => some s | _ => none)
  | _ => []

/-- The declared property names of a schema object (keys of its
`properties` map; empty when absent). -/
def J.propKeys (j : J) : List String :=
  match j.lookup "properties" with
  | some p => p.keys
  | _ => []

/-- The list of `allOf` entries of a schema object (empty when absent). -/
def J.allOfList (j : J) : List J :=
  match j.lookup "allOf" with
  | some (J.arr rs) => rs
  | _ => []

/-- The `if` part of an `allOf` conditional rule. -/
def ruleIf (r : J) : J := (r.lookup "if").getD J.null

/-- The `then` part of an `allOf` conditional rule. -/
def ruleThen (r : J) : J := (r.lookup "then").getD J.null

/-- The property/subschema pairs of a rule condition of the form
`{"if": {"properties": {...}}}` (empty for other condition shapes). -/
def ruleCondProps (r : J) : List (String × J) :=
  match (ruleIf r).lookup "properties" with
  | some (J.obj kvs) => kvs
  | _ => []

/-- Every property name the rule condition references: the keys of its
`if.properties` map plus the names of its `if.required` list (the two
condition shapes occurring in the generated schema). -/
def ruleCondRefs (r : J) : List String :=
  (ruleCondProps r).map Prod.fst ++ (ruleIf r).requiredList

/-- The property names the rule consequence makes required
(`then.required`; empty when the consequence has no `required`). -/
def ruleThenRequired (r : J) : List String :=
  (ruleThen r).requiredList

/-- A conditional rule is well-scoped for a declared property set when
every property its condition references and every property its consequence
requires is declared there. -/
def condRuleOk (props : List String) (r : J) : Bool :=
  (ruleCondRefs r).all props.contains && (ruleThenRequired r).all props.contains

mutual

/-- All conditional-rule sites in a value: every `allOf` entry of every
object node, paired with the property names declared on that same node. -/
def J.condRuleSites : J → List (List String × J)
  | .obj kvs => ((J.obj kvs).allOfList.map (fun r => ((J.obj kvs).propKeys, r))) ++ J.condRuleSitesKVs kvs
  | .arr xs => J.condRuleSitesArr xs
  | _ => []

def J.condRuleSitesKVs : List (String × J) → List (List String × J)
  | [] => []
  | (_, v) :: rest => v.condRuleSites ++ J.condRuleSitesKVs rest

def J.condRuleSitesArr : List J → List (List String × J)
  | [] => []
  | v :: rest => v.condRuleSites ++ J.condRuleSitesArr rest

end

/-- `true` iff every `allOf` conditional rule of every object node in the
value is well-scoped for the property set declared on that same node. -/
def J.condRulesOk (j : J) : Bool :=
  j.condRuleSites.all (fun site => condRuleOk site.1 site.2)

/-- JSON-Schema satisfaction of a rule condition by the one-field instance
`{p: v}` with `v` a string: every pair of `if.properties` holds (vacuously
when its key differs from `p`, since `properties` ignores absent members;
otherwise its `const` must equal `v`), and every name in `if.required` is
present, i.e. equals `p`. -/
def condSatisfiedBy (p v : String) (r : J) : Bool :=
  ((ruleCondProps r).all (fun kv =>
    if kv.1 == p then
      (match kv.2.lookup "const" with | some (J.str c) => c == v | _ => false)
    else true)) &&
  (ruleIf r).requiredList.all (fun k => k == p)

/-- The properties that the `allOf` rules of `obj` make required when the
instance sets property `p` to the string `v` (and nothing else). -/
def extraRequired (obj : J) (p v : String) : List String :=
  ((obj.allOfList.filter (condSatisfiedBy p v)).map ruleThenRequired).flatten

/-- A TableSchema node: an array schema whose `items` is an object schema
(the shape `table_array` produces, and the shape of the one inline table,
`associated_documents`). -/
def isTableSchema (j : J) : Bool :=
  match j.lookup "type", j.lookup "items" with
  | some (J.str "array"), some it =>
    (match it.lookup "type" with | some (J.str "object") => true | _ => false)
  | _, _ => false

/-- The location in the builder's `schema` that each table identifier of
the layout block refers to, read off the identifiers' naming convention
(section letter plus the table's name in that section). This is the
cross-reference the spec asks a sound implementation to check; the source
itself never performs the lookup. -/
def layoutTargetPath : String → Option (List String)
  | "C.table_1_annual_sales" => some ["$defs", "sections", "properties", "C_volume_of_sales_and_population_exposure",
      "properties", "table_1_sales_by_region", "properties", "annual_format", "properties", "rows"]
  | "D.table_2" => some ["$defs", "sections", "properties", "D_information_on_serious_incidents",
      "properties", "table_2_serious_incidents_by_imdrf_annex_a_by_region"]
  | "D.table_3" => some ["$defs", "sections", "properties", "D_information_on_serious_incidents",
      "properties", "table_3_serious_incidents_by_imdrf_annex_c_investigation_findings_by_region"]
  | "D.table_4" => some ["$defs", "sections", "properties", "D_information_on_serious_incidents",
      "properties", "table_4_health_impact_by_investigation_conclusion"]
  | "E.table_6" => some ["$defs", "sections", "properties", "E_customer_feedback",
      "properties", "table_6_feedback_by_type_and_source"]
  | "F.table_7_annually_harm_problem" => some ["$defs", "sections", "properties", "F_product_complaint_types_counts_and_rates",
      "properties", "table_7_complaint_rate_and_count", "properties", "annual_format", "properties", "rows"]
  | "G.trend_reports" => some ["$defs", "sections", "properties", "G_information_from_trend_reporting",
      "properties", "trend_reporting_summary", "properties", "trend_reports"]
  | "H.table_8_fsca" => some ["$defs", "sections", "properties", "H_information_from_fsca",
      "properties", "table_8_fsca_initiated_current_period_and_open_fscas"]
  | "I.table_9_capa" => some ["$defs", "sections", "properties", "I_corrective_and_preventive_actions",
      "properties", "table_9_capa_initiated_current_reporting_period"]
  | "K.table_10" => some ["$defs", "sections", "properties", "K_review_of_external_databases_and_registries",
      "properties", "table_10_adverse_events_and_recalls"]
  | "L.table_11_pmcf" => some ["$defs", "sections", "properties", "L_pmcf",
      "properties", "table_11_pmcf_activities"]
  | "B.associated_documents" => some ["$defs", "sections", "properties", "B_scope_and_device_description",
      "properties", "technical_information", "properties", "associated_documents"]
  | "B.mdr_devices_table" => some ["$defs", "sections", "properties", "B_scope_and_device_description",
      "properties", "device_information_breakdown", "properties", "mdr_devices", "properties", "basic_udi_di_rows"]
  | _ => none

/-- Every key of the layout's `tables` dict resolves, through its naming
convention, to a node of the builder's `schema` that is a TableSchema. -/
def layoutRefsOk : Bool :=
  tables.all (fun kv =>
    match layoutTargetPath kv.1 with
    | some path => (match schema.getPath path with | some t => isTableSchema t | none => false)
    | none => false)

/-- The `$defs` entry named `d` has `"NOT_SELECTED"` among its `enum`
values and declares `"NOT_SELECTED"` as its `default`. -/
def enumHasNotSelected (d : String) : Bool :=
  match schema.getPath ["$defs", d] with
  | some s =>
    ((match s.lookup "enum" with
      | some (J.arr xs) => xs.any (fun x => match x with | J.str c => c == "NOT_SELECTED" | _ => false)
      | _ => false)) &&
    (match s.lookup "default" with | some (J.str c) => c == "NOT_SELECTED" | _ => false)
  | none => false

/-- C1 (counterexample): at the exact mismatched input the claim cites —
required columns `["a","b"]` with a column map holding only `"a"` — the
table factory does not fail: its body is a single dict literal, so it
returns a complete TableSchema whose `items.required` still lists `"b"`
while `items.properties` declares only `"a"`. The claimed construction
error does not exist in the code. -/
theorem C1_table_factory_counterexample :
    table_array ["a", "b"] [("a", J.obj [("type", J.str "string")])] 0 =
      J.obj [
        ("type", J.str "array"),
        ("minItems", J.num 0),
        ("items", J.obj [
          ("type", J.str "object"),
          ("additionalProperties", J.bool false),
          ("required", J.arr [J.str "a", J.str "b"]),
          ("properties", J.obj [("a", J.obj [("type", J.str "string")])])
        ]),
        ("ui", J.obj [("widget", J.str "table")])
      ] := rfl

/-- C1 (amended): the table factory enforces no precondition. For every
required-column list and column map — matched or not — it returns a
TableSchema whose `items.required` is the given list verbatim and whose
declared columns are exactly the given map's keys; a required name absent
from the map is neither rejected nor dropped. -/
theorem C1_table_factory_amended (req : List String) (props : List (String × J)) (mi : ℚ) :
    (table_array req props mi).getPath ["items", "required"] = some (J.arr (req.map J.str)) ∧
    ((table_array req props mi).getPath ["items", "properties"]).map J.keys = some (props.map Prod.fst) ∧
    (table_array req props mi).getPath ["ui", "widget"] = some (J.str "table") :=
  ⟨rfl, rfl, rfl⟩

/-- C2: in the generated schema, the thirteen section keys enumerated in
the root `sections` schema's `required` list coincide — as the same
duplicate-free list — with the keys of the section schemas populated as
its `properties`, so the two sets are in bijection. -/
theorem C2_sections_bijection :
    ∃ keys : List String,
      (schema.getPath ["$defs", "sections"]).map J.requiredList = some keys ∧
      (schema.getPath ["$defs", "sections"]).map J.propKeys = some keys ∧
      keys.Nodup ∧ keys.length = 13 :=
  ⟨section_keys, rfl, rfl, by decide, rfl⟩

/-- C3: for both format-polymorphic tables (section C's
`table_1_sales_by_region` and section F's `table_7_complaint_rate_and_count`),
setting `use_if_psur_frequency` to `"ANNUALLY"` activates exactly the rule
requiring `annual_format`, setting it to `"EVERY_TWO_YEARS"` activates
exactly the rule requiring `every_two_years_format`, and the tables' own
`required` lists contain neither block — so in each case exactly the
matching block becomes required and the sibling stays un-required. -/
theorem C3_format_polymorphism :
    ((schema.getPath ["$defs", "sections", "properties", "C_volume_of_sales_and_population_exposure",
        "properties", "table_1_sales_by_region"]).map
      (fun t => extraRequired t "use_if_psur_frequency" "ANNUALLY") = some ["annual_format"]) ∧
    ((schema.getPath ["$defs", "sections", "properties", "C_volume_of_sales_and_population_exposure",
        "properties", "table_1_sales_by_region"]).map
      (fun t => extraRequired t "use_if_psur_frequency" "EVERY_TWO_YEARS") = some ["every_two_years_format"]) ∧
    ((schema.getPath ["$defs", "sections", "properties", "C_volume_of_sales_and_population_exposure",
        "properties", "table_1_sales_by_region"]).map J.requiredList = some ["use_if_psur_frequency"]) ∧
    ((schema.getPath ["$defs", "sections", "properties", "F_product_complaint_types_counts_and_rates",
        "properties", "table_7_complaint_rate_and_count"]).map
      (fun t => extraRequired t "use_if_psur_frequency" "ANNUALLY") = some ["annual_format"]) ∧
    ((schema.getPath ["$defs", "sections", "properties", "F_product_complaint_types_counts_and_rates",
        "properties", "table_7_complaint_rate_and_count"]).map
      (fun t => extraRequired t "use_if_psur_frequency" "EVERY_TWO_YEARS") = some ["every_two_years_format"]) ∧
    ((schema.getPath ["$defs", "sections", "properties", "F_product_complaint_types_counts_and_rates",
        "properties", "table_7_complaint_rate_and_count"]).map J.requiredList = some ["use_if_psur_frequency"]) :=
  ⟨rfl, rfl, rfl, rfl, rfl, rfl⟩

/-- C4: the root schema object's `required` list is exactly
`["form", "psur_cover_page", "sections"]` and its `additionalProperties`
is `false`, so the root rejects any other top-level property. -/
theorem C4_root_required :
    schema.lookup "required" = some (J.arr [J.str "form", J.str "psur_cover_page", J.str "sections"]) ∧
    schema.lookup "additionalProperties" = some (J.bool false) :=
  ⟨rfl, rfl⟩

/-- C5: the assembled `template_json` has exactly the five top-level keys
`meta`, `schema`, `uiSchema`, `layout`, `theme`, and the value under
`schema` is the builder's output embedded verbatim (the very same value,
with no sub-schema modified). -/
theorem C5_assembly_keys :
    template_json.keys = ["meta", "schema", "uiSchema", "layout", "theme"] ∧
    template_json.lookup "schema" = some schema :=
  ⟨rfl, rfl⟩

/-- C6 (counterexample): a builder output whose schema lacks the required
`sections` key is not rejected by the assembler — the script wraps it
unchanged and emits the artifact, because evaluating the `template_json`
literal only reads the name `schema` and never inspects its contents. -/
theorem C6_assembler_counterexample :
    "sections" ∉ (J.obj [("type", J.str "object")]).keys ∧
    assemble (some (J.obj [("type", J.str "object")])) =
      some (templateWith (J.obj [("type", J.str "object")])) :=
  ⟨by decide, rfl⟩

/-- C6 (amended): the assembler fails only when the builder source binds
no `schema` at all (the `NameError` case, modelled by `none`); whenever a
schema value is present it emits the five-key artifact with that value
embedded verbatim, performing no check of its contents — in particular a
schema missing its `sections` key is still emitted. -/
theorem C6_assembler_amended :
    assemble none = none ∧
    ∀ sc : J, (assemble (some sc)).map J.keys = some ["meta", "schema", "uiSchema", "layout", "theme"] ∧
      (assemble (some sc)).bind (fun t => t.lookup "schema") = some sc :=
  ⟨rfl, fun _ => ⟨rfl, rfl⟩⟩

/-- C7: every one of the thirteen table identifiers keyed in the layout
block's `tables` mapping resolves (through the identifiers' section-letter
naming convention, spelled out in `layoutTargetPath`) to a node of the
builder's schema that is a declared TableSchema — no layout entry is a
dangling reference. -/
theorem C7_layout_refs :
    tables.length = 13 ∧ layoutRefsOk = true :=
  ⟨rfl, rfl⟩

/-- C8: the generated schema contains ten conditional rules (if/then
entries of `allOf` lists on object schemas), and for every one of them the
condition references only properties declared on that same object and the
consequence's `required` set is a subset of that object's declared
property set. -/
theorem C8_conditional_rules_scoped :
    schema.condRuleSites.length = 10 ∧ schema.condRulesOk = true :=
  ⟨rfl, rfl⟩

/-- C9: the ordered section-key list the assembler places at
`uiSchema.sections.ui:order` is identical, element for element, to the
section-key enumeration declared in the builder's root `sections` schema's
`required` list — both are the same thirteen-element list. -/
theorem C9_section_order :
    ui_schema.getPath ["sections", "ui:order"] = some (J.arr (section_keys.map J.str)) ∧
    (schema.getPath ["$defs", "sections"]).map J.requiredList = some section_keys ∧
    section_keys.length = 13 :=
  ⟨rfl, rfl, rfl⟩

/-- C10: each of the four shared `$defs` enumerations — TriState, YesNoNA,
MDRClass, USFDAClass — lists `"NOT_SELECTED"` among its allowed values and
declares `"NOT_SELECTED"` as its default. -/
theorem C10_enum_not_selected :
    (["TriState", "YesNoNA", "MDRClass", "USFDAClass"].all enumHasNotSelected) = true :=
  rfl
